import Mathlib

/-!
# HouseHelp.AI — verification of the Issue Lifecycle & Repair-Orchestration core

A shallow embedding of the HouseHelp.AI frontend core (specialty matcher,
provider lookup fallback, issue page analysis handlers, flowchart step
numbering, issue submission) together with spec-modelled definitions of the
two backend operations that are not part of the shipped sources
(`contactProvider`, the dashboard aggregator).  The JavaScript string
operations the code relies on (`toLowerCase`, `includes`, `trim`, truthiness
of strings and of numbers) are modelled explicitly so that the JS coercion
behaviour is preserved.
-/

namespace HouseHelp

/-! ## JavaScript string primitives -/

/-- Character-list substring search: does `pat` occur inside the list? -/
def includesAux (pat : List Char) : List Char → Bool
  | [] => pat.isEmpty
  | c :: rest => pat.isPrefixOf (c :: rest) || includesAux pat rest

/-- JS `s.includes(pat)`: substring containment. -/
def jsIncludes (s pat : String) : Bool :=
  includesAux pat.data s.data

/-- JS `s.toLowerCase()` (ASCII case folding, as used by the repo). -/
def jsToLower (s : String) : String :=
  String.mk (s.data.map Char.toLower)

/-- JS whitespace characters recognised by `String.prototype.trim`
(the ASCII ones, which are the only ones relevant here). -/
def jsIsWhite (c : Char) : Bool :=
  c = ' ' || c = '\t' || c = '\n' || c = '\r' || c = Char.ofNat 11 || c = Char.ofNat 12

/-- JS `s.trim()`: strip leading and trailing whitespace. -/
def jsTrim (s : String) : String :=
  String.mk (((s.data.dropWhile jsIsWhite).reverse.dropWhile jsIsWhite).reverse)

/-- JS truthiness of an optional string field: `undefined`, `null` and the
empty string are falsy; every other string is truthy. -/
def jsTruthyStr : Option String → Bool
  | none => false
  | some s => s ≠ ""

/-! ## Data model (§3 of the spec, field names as in the JSON payloads) -/

/-- One step of a repair plan (`repair_plan.steps[i]`). -/
structure RepairStep where
  step : Option Nat
  instruction : String
  tools_needed : List String
  estimated_time : Option String
deriving Repr, DecidableEq

/-- A normalized repair plan as the frontend receives it. -/
structure RepairPlan where
  diagnosis : Option String
  is_diy : Bool
  estimated_time : Option String
  estimated_cost : Option String
  safety_warnings : List String
  steps : List RepairStep
  recommended_provider : Option String
deriving Repr, DecidableEq

/-- The payload returned by the analyze endpoint. -/
structure AnalysisResult where
  repair_plan : Option RepairPlan
  mermaid_flowchart : Option String
  text_flowchart : Option String
deriving Repr, DecidableEq

/-- An issue record. -/
structure Issue where
  id : Nat
  description : String
  image_path : Option String
  status : String
  diagnosis : Option String
  repairPlan : Option RepairPlan
deriving Repr, DecidableEq

/-- A maintenance-provider registry entry. -/
structure MaintenanceProvider where
  id : Nat
  name : String
  specialty : String
  rating : Nat
  email : String
  phone : String
  availability : String
deriving Repr, DecidableEq

/-- A maintenance-contact audit record. -/
structure AuditEvent where
  issueId : Nat
  providerId : Nat
deriving Repr, DecidableEq

/-! ## Specialty Matcher (src/unnamed/part_003, `loadProviders`, lines 39-61) -/

/-- The plumbing keyword family tested on the diagnosis text
(part_003 line 52). -/
def plumbingHit (d : String) : Bool :=
  jsIncludes d "plumb" || jsIncludes d "water" || jsIncludes d "pipe" || jsIncludes d "leak"

/-- The electrical keyword family tested on the diagnosis text
(part_003 line 54). -/
def electricalHit (d : String) : Bool :=
  jsIncludes d "electric" || jsIncludes d "wiring" || jsIncludes d "outlet" || jsIncludes d "switch"

/-- The appliances keyword family tested on the diagnosis text
(part_003 line 56). -/
def appliancesHit (d : String) : Bool :=
  jsIncludes d "appliance" || jsIncludes d "washer" || jsIncludes d "dryer" || jsIncludes d "refrigerator"

/-- The specialty the part_003 `loadProviders` derives from a repair plan
(lines 39-61): if `recommended_provider` is truthy, map the lower-cased hint
through ordered substring tests; otherwise run the keyword families over the
lower-cased diagnosis. -/
def inferSpecialty (plan : RepairPlan) : String :=
  if jsTruthyStr plan.recommended_provider then
    let provider := jsToLower (plan.recommended_provider.getD "")
    if jsIncludes provider "plumb" then "plumbing"
    else if jsIncludes provider "electric" then "electrical"
    else if jsIncludes provider "appliance" then "appliances"
    else if provider = "general" || jsIncludes provider "general" then "general"
    else "general"
  else
    let description := jsToLower (plan.diagnosis.getD "")
    if plumbingHit description then "plumbing"
    else if electricalHit description then "electrical"
    else if appliancesHit description then "appliances"
    else "general"

/-- The hint-branch mapping exactly as claim C3 words it (claim-side
formalization, used only to compare the claim against `inferSpecialty`):
lower-case the hint, then `"plumb"` to plumbing, else `"electric"` to
electrical, else `"appliance"` to appliances, else `"general"` to general,
else general. -/
def hintSpecialty (hint : String) : String :=
  let p := jsToLower hint
  if jsIncludes p "plumb" then "plumbing"
  else if jsIncludes p "electric" then "electrical"
  else if jsIncludes p "appliance" then "appliances"
  else if jsIncludes p "general" then "general"
  else "general"

/-- A repair plan carrying only a diagnosis text and no provider hint. -/
def diagnosisOnlyPlan (d : String) : RepairPlan :=
  { diagnosis := some d,
    is_diy := true,
    estimated_time := none,
    estimated_cost := none,
    safety_warnings := [],
    steps := [],
    recommended_provider := none }

/-! ## Provider lookup (part_003 `loadProviders` lines 63-73, and the
MaintenanceProviders.js variant lines 36-50)

The provider registry is abstracted as a function from the optional
`specialty` query parameter to the returned provider rows (services/api:
`getProviders` sends the `specialty` param only when it is truthy). -/

/-- The sequence of specialty filters the part_003 `loadProviders` requests
from the registry: the matched specialty, then — only when that result is
empty and the specialty is not already `general` — one retry with `general`. -/
def loadQueries (registry : Option String → List MaintenanceProvider)
    (plan : RepairPlan) : List (Option String) :=
  let specialty := inferSpecialty plan
  if (registry (some specialty)).length = 0 ∧ specialty ≠ "general" then
    [some specialty, some "general"]
  else
    [some specialty]

/-- The provider rows the part_003 `loadProviders` ends up with. -/
def loadResult (registry : Option String → List MaintenanceProvider)
    (plan : RepairPlan) : List MaintenanceProvider :=
  let specialty := inferSpecialty plan
  let providersData := registry (some specialty)
  if providersData.length = 0 ∧ specialty ≠ "general" then
    registry (some "general")
  else
    providersData

/-- The specialty filter the MaintenanceProviders.js `loadProviders` sends:
the raw `recommended_provider` text when truthy, otherwise no filter at all
(`specialty = null`, and services/api drops a falsy param). -/
def jsQuery (plan : RepairPlan) : Option String :=
  if jsTruthyStr plan.recommended_provider then plan.recommended_provider else none

/-- The single registry request of the MaintenanceProviders.js variant
(no keyword matching, no fallback retry). -/
def loadQueriesJs (plan : RepairPlan) : List (Option String) :=
  [jsQuery plan]

/-- The provider rows the MaintenanceProviders.js variant ends up with. -/
def loadResultJs (registry : Option String → List MaintenanceProvider)
    (plan : RepairPlan) : List MaintenanceProvider :=
  registry (jsQuery plan)

/-- The render gate of MaintenanceProviders.js (line 80):
`if (!repairPlan || repairPlan.is_diy) return null` — the provider panel is
shown only for a present, non-DIY plan. -/
def rendersProviders : Option RepairPlan → Bool
  | none => false
  | some rp => !rp.is_diy

/-! ## Issue page handlers (src/frontend/src/pages/IssueDetails.js) -/

/-- The issue update IssueDetails.js performs on a successful analysis
(lines 73-77): status is set to `analyzed` and the diagnosis is replaced by
the diagnosis of the returned plan when that is truthy, else kept. -/
def applyAnalysisToIssue (prev : Issue) (result : AnalysisResult) : Issue :=
  { prev with
    status := "analyzed",
    diagnosis :=
      match result.repair_plan.bind (fun rp => rp.diagnosis) with
      | some d => if d ≠ "" then some d else prev.diagnosis
      | none => prev.diagnosis }

/-- The mutable component state of the IssueDetails page that the analyze
handler touches. -/
structure PageState where
  issue : Issue
  analysis : Option AnalysisResult
  errorMsg : String
deriving Repr, DecidableEq

/-- The `analyzeIssue` handler of IssueDetails.js (lines 63-84), with the
outcome of the analyze API call passed in explicitly.  The handler first
clears the error banner; on success it stores the analysis payload and
applies `applyAnalysisToIssue`; on failure it only sets the error banner. -/
def analyzeIssueStep (st : PageState) (outcome : Except Unit AnalysisResult) :
    PageState :=
  let cleared := { st with errorMsg := "" }
  match outcome with
  | .ok result =>
      { cleared with
        analysis := some result,
        issue := applyAnalysisToIssue cleared.issue result }
  | .error _ =>
      { cleared with errorMsg := "Failed to analyze issue. Please try again." }

/-! ## Flowchart step numbering (FlowchartDisplay.js line 183,
src/unnamed/part_000 line 146): `Step {step.step || index + 1}` -/

/-- The step number FlowchartDisplay shows for the step at 0-based position
`index`: the JS expression `step.step || index + 1`, so a missing or zero
(falsy) `step` field falls back to the 1-based position. -/
def displayedStepNumber (step : RepairStep) (index : Nat) : Nat :=
  match step.step with
  | some n => if n ≠ 0 then n else index + 1
  | none => index + 1

/-! ## Issue submission (src/frontend/src/components/ImageUpload.js,
`handleSubmit`, lines 58-88) -/

/-- The component state of the upload form that `handleSubmit` reads and
writes. -/
structure UploadState where
  selectedImage : Option String
  description : String
  errorMsg : String
  successMsg : String
deriving Repr, DecidableEq

/-- The `handleSubmit` handler of ImageUpload.js with the outcome of the
would-be create-issue API call passed in explicitly.  Returns the new state
and whether a create-issue request was sent.  The guard is the JS test
`!selectedImage || !description.trim()`. -/
def handleSubmit (st : UploadState) (apiResult : Except Unit Unit) :
    UploadState × Bool :=
  if st.selectedImage = none ∨ jsTrim st.description = "" then
    ({ st with errorMsg := "Please provide both an image and description" }, false)
  else
    let cleared := { st with errorMsg := "", successMsg := "" }
    match apiResult with
    | .ok _ =>
        ({ cleared with
            successMsg := "Issue uploaded successfully!",
            selectedImage := none,
            description := "" }, true)
    | .error _ =>
        ({ cleared with errorMsg := "Failed to upload issue. Please try again." }, true)

/-! ## Spec-modelled backend operations

The FastAPI backend is not part of the shipped sources; only its frontend
callers (services/api) are.  The two operations the claims need are modelled
from the spec, faithful to its words. -/

/-- The error taxonomy of §7 restricted to the contact-provider operation. -/
inductive ContactError where
  | notFound
  | notEligibleForProfessional
  | providerUnavailable
deriving Repr, DecidableEq

/-- The persistent store the backend operations act on. -/
structure Store where
  issues : List Issue
  providers : List MaintenanceProvider
  auditLog : List AuditEvent
deriving Repr, DecidableEq

/-- Modelled from the spec: the backend `call-maintenance` endpoint
(`contactProvider` of §4.4) is not under src/; only its frontend caller is.
Per §4.4 and §7: unknown issue or provider id fails with `NotFound`; the
precondition `repairPlan.isDiy = false` is checked first and a DIY plan fails
with `NotEligibleForProfessional` before any provider is considered; a
provider that is not `available` fails with `ProviderUnavailable`; on success
the issue status becomes `maintenance_called` and one `AuditEvent` is
appended.  An issue with no repair plan (never successfully analyzed) has no
eligible plan and fails with `NotFound`. -/
def contactProvider (st : Store) (issueId providerId : Nat) :
    Except ContactError Store :=
  match st.issues.find? (fun i => i.id == issueId) with
  | none => .error .notFound
  | some issue =>
    match issue.repairPlan with
    | none => .error .notFound
    | some rp =>
      if rp.is_diy then .error .notEligibleForProfessional
      else
        match st.providers.find? (fun p => p.id == providerId) with
        | none => .error .notFound
        | some p =>
          if p.availability = "available" then
            .ok { st with
                  issues := st.issues.map (fun i =>
                    if i.id == issueId then { i with status := "maintenance_called" } else i),
                  auditLog := st.auditLog ++ [⟨issueId, providerId⟩] }
          else .error .providerUnavailable

/-- Count of issues in `completed` status (§4.5). -/
def isCompleted (i : Issue) : Bool :=
  i.status == "completed"

/-- Modelled from the spec: the backend `/api/dashboard` aggregator (§4.5)
is not under src/; only its frontend consumer is.  `completionRate =
completedIssues / totalIssues * 100`, and `0` when `totalIssues == 0`. -/
def completionRate (issues : List Issue) : ℚ :=
  let totalIssues := issues.length
  let completedIssues := (issues.filter isCompleted).length
  if totalIssues = 0 then 0
  else (completedIssues : ℚ) / (totalIssues : ℚ) * 100

/-! ## Concrete values used by examples, counterexamples and witnesses -/

/-- A non-DIY plan carrying a provider hint and a plumbing-flavoured
diagnosis. -/
def hintedPlan (hint : String) : RepairPlan :=
  { diagnosis := some "water leaking under sink",
    is_diy := false,
    estimated_time := none,
    estimated_cost := none,
    safety_warnings := [],
    steps := [],
    recommended_provider := some hint }

/-- A sample electrical provider row. -/
def provElec : MaintenanceProvider :=
  { id := 7,
    name := "Volt Masters",
    specialty := "electrical",
    rating := 5,
    email := "contact@voltmasters.example",
    phone := "555-0107",
    availability := "available" }

/-- A registry holding exactly one row, filed under the `electrical`
specialty. -/
def registryOne : Option String → List MaintenanceProvider :=
  fun q => if q = some "electrical" then [provElec] else []

/-- An analyzed issue whose repair plan is DIY. -/
def issueDiy : Issue :=
  { id := 1,
    description := "cabinet hinge came loose",
    image_path := none,
    status := "analyzed",
    diagnosis := some "loose cabinet hinge",
    repairPlan := some (diagnosisOnlyPlan "loose cabinet hinge") }

/-- A store holding the DIY issue and one available provider. -/
def storeDiy : Store :=
  { issues := [issueDiy],
    providers := [provElec],
    auditLog := [] }

/-- A completed issue, about to be re-analyzed. -/
def completedIssueW : Issue :=
  { id := 2,
    description := "water heater leaking",
    image_path := none,
    status := "completed",
    diagnosis := some "old diagnosis",
    repairPlan := none }

/-- A successful analysis payload carrying a fresh diagnosis. -/
def resultW : AnalysisResult :=
  { repair_plan := some (diagnosisOnlyPlan "new diagnosis"),
    mermaid_flowchart := none,
    text_flowchart := none }

/-- A repair step whose advisory number is present but zero (JS-falsy). -/
def stepZero : RepairStep :=
  { step := some 0,
    instruction := "Turn off the water supply",
    tools_needed := [],
    estimated_time := none }

/-- A repair step with the explicit number 5. -/
def stepFive : RepairStep :=
  { step := some 5,
    instruction := "Tighten the fitting",
    tools_needed := ["wrench"],
    estimated_time := none }

/-- A minimal issue in a given status, for dashboard aggregation examples. -/
def statusIssue (n : Nat) (s : String) : Issue :=
  { id := n,
    description := "issue",
    image_path := none,
    status := s,
    diagnosis := none,
    repairPlan := none }

/-- Ten issues of which exactly three are completed. -/
def exampleTen : List Issue :=
  (List.range 3).map (fun n => statusIssue n "completed") ++
  (List.range 7).map (fun n => statusIssue (n + 3) "new")

/-- An upload form state with a description typed but no image chosen. -/
def uploadNoImage : UploadState :=
  { selectedImage := none,
    description := "water heater leaking",
    errorMsg := "",
    successMsg := "" }

/-! ## Shared helper lemmas -/

/-- On a truthy (present, non-empty) hint, the part_003 matcher follows the
ordered hint tests of `hintSpecialty`. -/
lemma inferSpecialty_hint_eq (plan : RepairPlan) (h : String)
    (hrp : plan.recommended_provider = some h) (hne : h ≠ "") :
    inferSpecialty plan = hintSpecialty h := by
  have htru : jsTruthyStr (some h) = true := by
    simp [jsTruthyStr, hne]
  simp only [inferSpecialty, hintSpecialty, hrp, htru, Option.getD_some, if_true]
  cases h1 : jsIncludes (jsToLower h) "plumb" <;>
    cases h2 : jsIncludes (jsToLower h) "electric" <;>
      cases h3 : jsIncludes (jsToLower h) "appliance" <;>
        simp [h1, h2, h3]

/-- Every value of `hintSpecialty` is one of the four specialty
categories. -/
lemma hintSpecialty_mem (h : String) :
    hintSpecialty h = "plumbing" ∨ hintSpecialty h = "electrical" ∨
      hintSpecialty h = "appliances" ∨ hintSpecialty h = "general" := by
  cases h1 : jsIncludes (jsToLower h) "plumb" <;>
    cases h2 : jsIncludes (jsToLower h) "electric" <;>
      cases h3 : jsIncludes (jsToLower h) "appliance" <;>
        cases h4 : jsIncludes (jsToLower h) "general" <;>
          simp [hintSpecialty, h1, h2, h3, h4]

/-! ## Claim theorems -/

/-- Claim C1: for every issue whose repair plan has `isDiy = true`,
`contactProvider` fails with `NotEligibleForProfessional` regardless of which
provider id is supplied, so it never returns an updated store and no contact
is recorded; the MaintenanceProviders.js panel likewise refuses to render for
a DIY plan. -/
theorem contactProvider_diy_never_routed (st : Store) (issueId providerId : Nat)
    (issue : Issue) (rp : RepairPlan)
    (hfind : st.issues.find? (fun i => i.id == issueId) = some issue)
    (hplan : issue.repairPlan = some rp)
    (hdiy : rp.is_diy = true) :
    contactProvider st issueId providerId = .error .notEligibleForProfessional ∧
    (∀ st2 : Store, contactProvider st issueId providerId ≠ .ok st2) ∧
    rendersProviders (some rp) = false := by
  have h1 : contactProvider st issueId providerId = .error .notEligibleForProfessional := by
    simp [contactProvider, hfind, hplan, hdiy]
  refine ⟨h1, fun st2 hok => ?_, ?_⟩
  · rw [h1] at hok
    exact Except.noConfusion hok
  · simp [rendersProviders, hdiy]

/-- Witness for C1 at a concrete store: the DIY issue 1 is rejected for
provider 7 (and for provider 99 just the same). -/
theorem contactProvider_diy_never_routed_w :
    contactProvider storeDiy 1 7 = .error .notEligibleForProfessional ∧
    contactProvider storeDiy 1 99 = .error .notEligibleForProfessional :=
  ⟨(contactProvider_diy_never_routed storeDiy 1 7 issueDiy
      (diagnosisOnlyPlan "loose cabinet hinge") (by decide) (by decide) (by decide)).1,
   (contactProvider_diy_never_routed storeDiy 1 99 issueDiy
      (diagnosisOnlyPlan "loose cabinet hinge") (by decide) (by decide) (by decide)).1⟩

/-- Claim C2: on a plan with no `recommendedProvider`, the matcher is total
and deterministic over the lower-cased diagnosis: it returns exactly one of
the four categories, the keyword families are tested plumbing, then
electrical, then appliances, first hit wins, anything else gives `general`;
in particular "leaking pipe and electrical outlet" and "water leaking under
sink" both give `plumbing`. -/
theorem inferSpecialty_diagnosis_total (plan : RepairPlan)
    (hrp : plan.recommended_provider = none) :
    (inferSpecialty plan = "plumbing" ∨ inferSpecialty plan = "electrical" ∨
      inferSpecialty plan = "appliances" ∨ inferSpecialty plan = "general") ∧
    (plumbingHit (jsToLower (plan.diagnosis.getD "")) = true →
      inferSpecialty plan = "plumbing") ∧
    (plumbingHit (jsToLower (plan.diagnosis.getD "")) = false →
      electricalHit (jsToLower (plan.diagnosis.getD "")) = true →
      inferSpecialty plan = "electrical") ∧
    (plumbingHit (jsToLower (plan.diagnosis.getD "")) = false →
      electricalHit (jsToLower (plan.diagnosis.getD "")) = false →
      appliancesHit (jsToLower (plan.diagnosis.getD "")) = true →
      inferSpecialty plan = "appliances") ∧
    (plumbingHit (jsToLower (plan.diagnosis.getD "")) = false →
      electricalHit (jsToLower (plan.diagnosis.getD "")) = false →
      appliancesHit (jsToLower (plan.diagnosis.getD "")) = false →
      inferSpecialty plan = "general") ∧
    inferSpecialty (diagnosisOnlyPlan "leaking pipe and electrical outlet") = "plumbing" ∧
    inferSpecialty (diagnosisOnlyPlan "water leaking under sink") = "plumbing" := by
  have hfalse : jsTruthyStr plan.recommended_provider = false := by
    rw [hrp]
    rfl
  refine ⟨?_, ?_, ?_, ?_, ?_, by decide, by decide⟩ <;>
    cases hp : plumbingHit (jsToLower (plan.diagnosis.getD "")) <;>
      cases he : electricalHit (jsToLower (plan.diagnosis.getD "")) <;>
        cases ha : appliancesHit (jsToLower (plan.diagnosis.getD "")) <;>
          simp [inferSpecialty, hfalse, hp, he, ha]

/-- Witness for C2 at the concrete plan for "water leaking under sink". -/
theorem inferSpecialty_diagnosis_total_w :
    inferSpecialty (diagnosisOnlyPlan "water leaking under sink") = "plumbing" :=
  (inferSpecialty_diagnosis_total (diagnosisOnlyPlan "water leaking under sink")
    rfl).2.2.2.2.2.2

/-- Counterexample to claim C3 as stated: the hint `""` is present
(`recommended_provider = some ""`), and by the claimed ordered substring tests
an unrecognized hint must default to `general`; but the code treats a falsy
(empty) hint as absent, falls through to the diagnosis branch and returns
`plumbing` for this plan. -/
theorem inferSpecialty_empty_hint_cex :
    (hintedPlan "").recommended_provider = some "" ∧
    hintSpecialty "" = "general" ∧
    inferSpecialty (hintedPlan "") = "plumbing" ∧
    inferSpecialty (hintedPlan "") ≠ hintSpecialty "" := by
  refine ⟨rfl, by decide, by decide, by decide⟩

/-- Claim C3 as amended: for every plan whose `recommendedProvider` hint is
present and non-empty (JS-truthy), the matcher lower-cases the hint and tests
substring membership in the fixed order plumb, electric, appliance, general,
any unrecognized non-empty hint defaults to `general`, and the matcher is
total; an empty hint is instead treated as absent and falls through to the
diagnosis branch. -/
theorem inferSpecialty_hint_branch (plan : RepairPlan) (h : String)
    (hrp : plan.recommended_provider = some h) (hne : h ≠ "") :
    inferSpecialty plan = hintSpecialty h ∧
    (inferSpecialty plan = "plumbing" ∨ inferSpecialty plan = "electrical" ∨
      inferSpecialty plan = "appliances" ∨ inferSpecialty plan = "general") := by
  have heq := inferSpecialty_hint_eq plan h hrp hne
  refine ⟨heq, ?_⟩
  rw [heq]
  exact hintSpecialty_mem h

/-- Witness for C3 (amended) at the concrete hint "Electrician": the matcher
maps it through the ordered tests to `electrical`. -/
theorem inferSpecialty_hint_branch_w :
    inferSpecialty (hintedPlan "Electrician") = hintSpecialty "Electrician" ∧
    hintSpecialty "Electrician" = "electrical" :=
  ⟨(inferSpecialty_hint_branch (hintedPlan "Electrician") "Electrician" rfl
      (by decide)).1,
   by decide⟩

/-- Claim C4: the part_003 provider lookup queries the registry filtered by
the matched specialty; when that result is empty and the specialty is not
`general`, exactly one retry with `general` is performed; when the retry is
also empty the result is the empty sequence, not an error. -/
theorem loadProviders_fallback (registry : Option String → List MaintenanceProvider)
    (plan : RepairPlan) :
    ((registry (some (inferSpecialty plan)) ≠ [] ∨ inferSpecialty plan = "general") →
      loadQueries registry plan = [some (inferSpecialty plan)] ∧
      loadResult registry plan = registry (some (inferSpecialty plan))) ∧
    (registry (some (inferSpecialty plan)) = [] → inferSpecialty plan ≠ "general" →
      loadQueries registry plan = [some (inferSpecialty plan), some "general"] ∧
      loadResult registry plan = registry (some "general")) ∧
    (registry (some (inferSpecialty plan)) = [] → registry (some "general") = [] →
      loadResult registry plan = []) := by
  refine ⟨fun hor => ?_, fun hemp hgen => ?_, fun hemp hgen2 => ?_⟩
  · have hc : ¬((registry (some (inferSpecialty plan))).length = 0 ∧
        inferSpecialty plan ≠ "general") := by
      rintro ⟨h0, hng⟩
      rcases hor with hne | hg
      · exact hne (List.length_eq_zero.mp h0)
      · exact hng hg
    constructor
    · simp only [loadQueries]
      rw [if_neg hc]
    · simp only [loadResult]
      rw [if_neg hc]
  · have hc : (registry (some (inferSpecialty plan))).length = 0 ∧
        inferSpecialty plan ≠ "general" := ⟨by rw [hemp]; rfl, hgen⟩
    constructor
    · simp only [loadQueries]
      rw [if_pos hc]
    · simp only [loadResult]
      rw [if_pos hc]
  · by_cases hg : inferSpecialty plan = "general"
    · have hc : ¬((registry (some (inferSpecialty plan))).length = 0 ∧
          inferSpecialty plan ≠ "general") := by
        rintro ⟨_, hng⟩
        exact hng hg
      simp only [loadResult]
      rw [if_neg hc, hemp]
    · have hc : (registry (some (inferSpecialty plan))).length = 0 ∧
          inferSpecialty plan ≠ "general" := ⟨by rw [hemp]; rfl, hg⟩
      simp only [loadResult]
      rw [if_pos hc, hgen2]

/-- Witness for C4 at the everywhere-empty registry: the lookup for the
plumbing plan ends with the empty sequence. -/
theorem loadProviders_fallback_w :
    loadResult (fun _ => []) (diagnosisOnlyPlan "water leaking under sink") = [] ∧
    loadQueries (fun _ => []) (diagnosisOnlyPlan "water leaking under sink") =
      [some "plumbing", some "general"] := by
  refine ⟨(loadProviders_fallback (fun _ => [])
    (diagnosisOnlyPlan "water leaking under sink")).2.2 rfl rfl, ?_⟩
  exact ((loadProviders_fallback (fun _ => [])
    (diagnosisOnlyPlan "water leaking under sink")).2.1 rfl (by decide)).1

/-- Counterexample to claim C5 as stated: in IssueDetails.js a successful
re-analysis of the completed issue sets the page status to `analyzed`, so the
status does not stay `completed` — re-analysis does revert a completed
issue. -/
theorem reanalysis_reverts_completed_cex :
    completedIssueW.status = "completed" ∧
    (applyAnalysisToIssue completedIssueW resultW).status = "analyzed" ∧
    (applyAnalysisToIssue completedIssueW resultW).status ≠ "completed" := by
  refine ⟨rfl, rfl, by decide⟩

/-- Claim C5 as amended: in the IssueDetails.js page a successful
(re-)analysis always sets the issue status to `analyzed` regardless of the
prior status — in particular it reverts a completed issue — while the stored
repair plan field is untouched and the diagnosis is overwritten whenever the
new plan carries a non-empty one.  (The part_002 page variant instead reloads
the stored issue, leaving the persisted status authoritative; the two
variants disagree, as §9 of the spec notes.) -/
theorem applyAnalysis_always_analyzed (prev : Issue) (result : AnalysisResult) :
    (applyAnalysisToIssue prev result).status = "analyzed" ∧
    (applyAnalysisToIssue prev result).repairPlan = prev.repairPlan ∧
    (∀ rp d, result.repair_plan = some rp → rp.diagnosis = some d → d ≠ "" →
      (applyAnalysisToIssue prev result).diagnosis = some d) := by
  refine ⟨rfl, rfl, fun rp d hrp hd hne => ?_⟩
  simp [applyAnalysisToIssue, hrp, hd, hne]

/-- Witness for C5 (amended) at the completed issue and a fresh plan. -/
theorem applyAnalysis_always_analyzed_w :
    (applyAnalysisToIssue completedIssueW resultW).status = "analyzed" ∧
    (applyAnalysisToIssue completedIssueW resultW).diagnosis = some "new diagnosis" :=
  ⟨(applyAnalysis_always_analyzed completedIssueW resultW).1,
   (applyAnalysis_always_analyzed completedIssueW resultW).2.2
     (diagnosisOnlyPlan "new diagnosis") "new diagnosis" rfl rfl (by decide)⟩

/-- Claim C6: when the analyze call fails, the IssueDetails.js handler leaves
the issue record — status, diagnosis and repair plan — and the analysis state
exactly as they were, and surfaces an error message to the caller; failure is
not a state transition and no partial update occurs. -/
theorem analyzeIssueStep_failure_preserves (st : PageState) :
    (analyzeIssueStep st (.error ())).issue = st.issue ∧
    (analyzeIssueStep st (.error ())).issue.status = st.issue.status ∧
    (analyzeIssueStep st (.error ())).issue.repairPlan = st.issue.repairPlan ∧
    (analyzeIssueStep st (.error ())).analysis = st.analysis ∧
    (analyzeIssueStep st (.error ())).errorMsg = "Failed to analyze issue. Please try again." :=
  ⟨rfl, rfl, rfl, rfl, rfl⟩

/-- Claim C7: the dashboard completion rate is completed/total*100, is 0 on
an empty collection (no division by zero), and equals 30 for a collection of
10 issues of which 3 are completed. -/
theorem dashboard_completion_rate (issues : List Issue) :
    completionRate [] = 0 ∧
    (issues.length ≠ 0 →
      completionRate issues =
        ((issues.filter isCompleted).length : ℚ) / (issues.length : ℚ) * 100) ∧
    exampleTen.length = 10 ∧
    (exampleTen.filter isCompleted).length = 3 ∧
    completionRate exampleTen = 30 := by
  refine ⟨rfl, fun h => ?_, rfl, rfl, ?_⟩
  · simp only [completionRate]
    rw [if_neg h]
  · have h10 : exampleTen.length = 10 := rfl
    have h3 : (exampleTen.filter isCompleted).length = 3 := rfl
    simp only [completionRate, h10, h3]
    norm_num

/-- Witness for C7 at the ten-issue collection. -/
theorem dashboard_completion_rate_w :
    completionRate exampleTen =
      ((exampleTen.filter isCompleted).length : ℚ) / (exampleTen.length : ℚ) * 100 :=
  (dashboard_completion_rate exampleTen).2.1 (by decide)

/-- Counterexample to claim C8 as stated: the step number 0 is present
(`step = some 0`), yet FlowchartDisplay shows the 1-based position 1 instead
of the present value — `step.step || index + 1` falls back on every falsy
value, not only on an absent one. -/
theorem displayedStepNumber_zero_cex :
    stepZero.step = some 0 ∧
    displayedStepNumber stepZero 0 = 1 ∧
    displayedStepNumber stepZero 0 ≠ 0 :=
  ⟨rfl, rfl, by decide⟩

/-- Claim C8 as amended: when the advisory `stepNumber` is absent or zero
(JS-falsy) the step's 1-based position is the displayed number, and when it
is present and non-zero it is displayed unchanged. -/
theorem displayedStepNumber_rule (step : RepairStep) (index : Nat) :
    (step.step = none → displayedStepNumber step index = index + 1) ∧
    (step.step = some 0 → displayedStepNumber step index = index + 1) ∧
    (∀ n, step.step = some n → n ≠ 0 → displayedStepNumber step index = n) := by
  refine ⟨fun h => ?_, fun h => ?_, fun n h hn => ?_⟩
  · simp [displayedStepNumber, h]
  · simp [displayedStepNumber, h]
  · simp [displayedStepNumber, h, hn]

/-- Witness for C8 (amended): a present, non-zero number 5 is displayed as
given, at position index 2. -/
theorem displayedStepNumber_rule_w :
    displayedStepNumber stepFive 2 = 5 :=
  (displayedStepNumber_rule stepFive 2).2.2 5 rfl (by decide)

/-- Counterexample to claim C9 as stated: for the plan whose hint is
"Electrician" and a registry holding one electrical provider row, the
part_003 `loadProviders` requests the mapped specialty `electrical` and gets
the row, while the MaintenanceProviders.js variant sends the raw string
"Electrician" as the filter and gets nothing — the two implementations
request different filters and obtain different providers. -/
theorem loadProviders_variants_differ_cex :
    loadQueries registryOne (hintedPlan "Electrician") = [some "electrical"] ∧
    loadQueriesJs (hintedPlan "Electrician") = [some "Electrician"] ∧
    loadQueries registryOne (hintedPlan "Electrician") ≠
      loadQueriesJs (hintedPlan "Electrician") ∧
    loadResult registryOne (hintedPlan "Electrician") = [provElec] ∧
    loadResultJs registryOne (hintedPlan "Electrician") = [] ∧
    loadResult registryOne (hintedPlan "Electrician") ≠
      loadResultJs registryOne (hintedPlan "Electrician") := by
  decide

/-- Claim C9 as amended: the two `loadProviders` implementations are not
equivalent in general — part_003 maps the hint or diagnosis through the
keyword matcher and retries `general` on an empty result, while the
MaintenanceProviders.js variant passes the raw hint unchanged (and no filter
at all when the hint is absent) and never retries.  They do request the same
single specialty filter and obtain the same provider rows when the hint is
exactly one of the four canonical specialty names and the first lookup is
non-empty. -/
theorem loadProviders_agree_on_canonical
    (registry : Option String → List MaintenanceProvider)
    (plan : RepairPlan) (s : String)
    (hrp : plan.recommended_provider = some s)
    (hs : s = "plumbing" ∨ s = "electrical" ∨ s = "appliances" ∨ s = "general")
    (hne : registry (some s) ≠ []) :
    inferSpecialty plan = s ∧
    loadQueries registry plan = [some s] ∧
    loadQueriesJs plan = [some s] ∧
    loadResult registry plan = registry (some s) ∧
    loadResultJs registry plan = registry (some s) := by
  have hinf : inferSpecialty plan = s := by
    rcases hs with h | h | h | h <;> subst h <;>
      rw [inferSpecialty_hint_eq plan _ hrp (by decide)] <;> decide
  have hc : ¬((registry (some (inferSpecialty plan))).length = 0 ∧
      inferSpecialty plan ≠ "general") := by
    rintro ⟨h0, _⟩
    rw [hinf] at h0
    exact hne (List.length_eq_zero.mp h0)
  have hq : jsQuery plan = some s := by
    have hsne : s ≠ "" := by
      rcases hs with h | h | h | h <;> subst h <;> decide
    simp [jsQuery, hrp, jsTruthyStr, hsne]
  refine ⟨hinf, ?_, ?_, ?_, ?_⟩
  · simp only [loadQueries]
    rw [if_neg hc, hinf]
  · simp only [loadQueriesJs, hq]
  · simp only [loadResult]
    rw [if_neg hc, hinf]
  · simp only [loadResultJs, hq]

/-- Witness for C9 (amended) at the canonical hint "electrical" and the
one-row registry. -/
theorem loadProviders_agree_on_canonical_w :
    loadQueries registryOne (hintedPlan "electrical") = [some "electrical"] ∧
    loadQueriesJs (hintedPlan "electrical") = [some "electrical"] :=
  ⟨(loadProviders_agree_on_canonical registryOne (hintedPlan "electrical")
      "electrical" rfl (Or.inr (Or.inl rfl)) (by decide)).2.1,
   (loadProviders_agree_on_canonical registryOne (hintedPlan "electrical")
      "electrical" rfl (Or.inr (Or.inl rfl)) (by decide)).2.2.1⟩

/-- Claim C10: the ImageUpload submit handler rejects a submission without an
image or with an empty or whitespace-only description, reporting exactly
"Please provide both an image and description", sending no create-issue
request and leaving the image, description and success state unchanged; a
request is sent exactly when an image and a non-blank description are both
present. -/
theorem handleSubmit_validation (st : UploadState) (res : Except Unit Unit) :
    ((st.selectedImage = none ∨ jsTrim st.description = "") →
      handleSubmit st res =
        ({ st with errorMsg := "Please provide both an image and description" }, false)) ∧
    ((handleSubmit st res).2 = true ↔
      st.selectedImage ≠ none ∧ jsTrim st.description ≠ "") ∧
    ((∀ c ∈ st.description.data, jsIsWhite c = true) → jsTrim st.description = "") := by
  refine ⟨fun h => ?_, ?_, fun hall => ?_⟩
  · simp only [handleSubmit]
    rw [if_pos h]
  · by_cases hc : st.selectedImage = none ∨ jsTrim st.description = ""
    · have : handleSubmit st res =
          ({ st with errorMsg := "Please provide both an image and description" }, false) := by
        simp only [handleSubmit]
        rw [if_pos hc]
      rw [this]
      simp only [Bool.false_eq_true, false_iff]
      rintro ⟨hne1, hne2⟩
      rcases hc with h | h
      · exact hne1 h
      · exact hne2 h
    · push_neg at hc
      have : (handleSubmit st res).2 = true := by
        simp only [handleSubmit]
        rw [if_neg (by rintro (h | h); exacts [hc.1 h, hc.2 h])]
        cases res <;> rfl
      rw [this]
      simp [hc.1, hc.2]
  · have h1 : st.description.data.dropWhile jsIsWhite = [] :=
      List.dropWhile_eq_nil_iff.mpr hall
    simp [jsTrim, h1]

/-- Witness for C10 at a state with a typed description but no image: the
submission is rejected with the exact message and no request. -/
theorem handleSubmit_validation_w :
    handleSubmit uploadNoImage (.ok ()) =
      ({ uploadNoImage with
          errorMsg := "Please provide both an image and description" }, false) :=
  (handleSubmit_validation uploadNoImage (.ok ())).1 (Or.inl rfl)

end HouseHelp
